import Mathlib

/-!
# Verification of the Jamie Andrew Car Services subscriptions API

A shallow embedding of `src/main.py` (FastAPI endpoints over a MongoDB-style
document store) together with the declared collection layout of
`src/schemas.py`.

Modelling choices:
* A stored document is a Python-style dict: an association list from string
  keys to `Value`s.  `Value` covers the value shapes the endpoints actually
  produce (strings, ints, rationals for the float prices, booleans, datetimes,
  string lists, `None`, and BSON ObjectIds).
* Timestamps (`datetime`) are modelled as `Int` instants; `timedelta(days=30)`
  is exactly `30 * 86400` seconds, so datetime arithmetic is exact.
* `bson.ObjectId(s)` accepts exactly the 24-character hexadecimal strings,
  normalising to lowercase (`str(ObjectId(s)) == s.lower()`); any other string
  raises `bson.errors.InvalidId`, which no endpoint catches — FastAPI surfaces
  it as an unhandled server error, modelled as `ApiError.invalidId`.
* Store-generated identifiers are supplied as explicit `freshId` arguments.
* The module `database.py` (`db`, `create_document`, `get_documents`) is not
  part of the sources; its operations are modelled from the spec, which calls
  them "direct pass-through storage access" (see the doc comments below).
-/

/-- A BSON-style value as the endpoints produce and query them. -/
inductive Value where
  | str (s : String)
  | int (n : Int)
  | num (q : ℚ)
  | bool (b : Bool)
  | dt (t : Int)
  | strList (xs : List String)
  | null
  | oid (h : String)
  deriving DecidableEq, Repr

/-- A document: a Python dict, keys in insertion order. -/
abbrev Doc := List (String × Value)

/-- `d[k]` as an optional lookup (first binding wins, as in a dict). -/
def Doc.lookup (d : Doc) (k : String) : Option Value :=
  List.lookup k d

/-- `d[k]` with Python's `KeyError` collapsed to `null` (used only where the
source indexes a key that is present by construction). -/
def Doc.get (d : Doc) (k : String) : Value :=
  (d.lookup k).getD Value.null

/-- A MongoDB query document matches a stored document when every queried key
is present with an equal value (the only query shapes the source uses are
equality matches and the empty query). -/
def matchesQuery (q : Doc) (d : Doc) : Bool :=
  q.all fun kv => decide (d.lookup kv.1 = some kv.2)

/-- The four collections of the persisted layout (spec §6). -/
structure Store where
  customer : List Doc
  plan : List Doc
  subscription : List Doc
  booking : List Doc
  deriving DecidableEq, Repr

/-- `collection.find_one(query)`: first matching document, if any. -/
def findOne (docs : List Doc) (q : Doc) : Option Doc :=
  docs.find? (matchesQuery q)

def isHexChar (c : Char) : Bool :=
  (decide ('0' ≤ c) && decide (c ≤ '9')) ||
  (decide ('a' ≤ c) && decide (c ≤ 'f')) ||
  (decide ('A' ≤ c) && decide (c ≤ 'F'))

/-- `bson.ObjectId(s)` for a `str` argument: succeeds exactly on 24-character
hexadecimal strings, and `str(ObjectId(s))` is the lowercased input; any other
string raises `bson.errors.InvalidId`. -/
def parseObjectId (s : String) : Option String :=
  if s.data.length = 24 && s.data.all isHexChar then
    some (String.mk (s.data.map Char.toLower))
  else
    none

/-- `timedelta(days=30)` in seconds; datetime arithmetic is exact. -/
def thirtyDays : Int := 30 * 86400

/-- Outcomes of a request, as FastAPI surfaces them.  `invalidId` is the
unhandled `bson.errors.InvalidId` exception (an internal server error, not an
`HTTPException`). -/
inductive ApiError where
  | notFound (detail : String)
  | serverError (detail : String)
  | invalidId
  deriving DecidableEq, Repr

deriving instance DecidableEq for Except

/-- Modelled from the spec: `database.create_document(collection, data)` is
not under `src/`; the spec calls the persistence layer "direct pass-through
storage access" and a "Document Store Gateway" doing "key-based and
filter-based read/write over named collections" that "returns documents with a
unique identifier per record".  It inserts the data unchanged under a
store-generated `_id` and returns that identifier.  The generated identifier
is threaded in as `freshId`. -/
def create_document (docs : List Doc) (data : Doc) (freshId : String) :
    List Doc × String :=
  (docs ++ [("_id", Value.oid freshId) :: data], freshId)

/-- Modelled from the spec: `database.get_documents(collection, query)` is not
under `src/`; per the spec's Document Store Gateway it is a filtered scan —
"filter-based read … over named collections", returning "a finite, non-lazy
ordered sequence matching whatever order the store's scan yields". -/
def get_documents (docs : List Doc) (q : Doc) : List Doc :=
  docs.filter (matchesQuery q)

/-! ## Request bodies (`main.py` lines 50–78)

FastAPI validates the JSON body against these Pydantic models before the
handler runs; a value of the structure type is exactly a body that passed that
shape check.  `CreateCustomer.car_year` carries no range constraint in
`main.py` (the `ge=1970, le=2100` bounds appear only on the unused
`schemas.Customer`). -/

structure CreateCustomer where
  name : String
  email : String
  phone : String
  car_make : String
  car_model : String
  car_year : Option Int := none
  plate_number : Option String := none
  deriving DecidableEq, Repr

structure CreateSubscription where
  customer_id : String
  plan_id : String
  deriving DecidableEq, Repr

structure CreateBooking where
  subscription_id : String
  service_type : String
  scheduled_date : Int
  location : String
  notes : Option String := none
  deriving DecidableEq, Repr

def optStr : Option String → Value
  | some s => Value.str s
  | none => Value.null

def optInt : Option Int → Value
  | some n => Value.int n
  | none => Value.null

/-- `payload.model_dump()` for `CreateCustomer`: field order of the model. -/
def CreateCustomer.model_dump (p : CreateCustomer) : Doc :=
  [("name", Value.str p.name), ("email", Value.str p.email),
   ("phone", Value.str p.phone), ("car_make", Value.str p.car_make),
   ("car_model", Value.str p.car_model), ("car_year", optInt p.car_year),
   ("plate_number", optStr p.plate_number)]

/-- `payload.model_dump()` for `CreateBooking`: field order of the model.
Note there is no `status` key — `CreateBooking` has no such field. -/
def CreateBooking.model_dump (p : CreateBooking) : Doc :=
  [("subscription_id", Value.str p.subscription_id),
   ("service_type", Value.str p.service_type),
   ("scheduled_date", Value.dt p.scheduled_date),
   ("location", Value.str p.location),
   ("notes", optStr p.notes)]

/-! ## Endpoint embeddings (`main.py`)

Each handler takes the current store and returns the (possibly updated) store
together with the response: the handler raises before any insert on its error
paths, so an `Except.error` result is always paired with the unchanged
store. -/

/-- Lines 154–155: `db[coll].find_one({"_id": ObjectId(raw)}) if raw else None`.
Python truthiness makes the empty string skip the lookup (yielding `None`);
a non-empty malformed id raises `InvalidId` out of the handler. -/
def refLookupIfTruthy (docs : List Doc) (raw : String) :
    Except ApiError (Option Doc) :=
  if raw ≠ "" then
    match parseObjectId raw with
    | none => Except.error ApiError.invalidId
    | some h => Except.ok (findOne docs [("_id", Value.oid h)])
  else
    Except.ok none

/-- `POST /api/customers` (lines 145–148): persist the dumped payload, return
the generated id. -/
def create_customer (st : Store) (freshId : String) (p : CreateCustomer) :
    Store × Except ApiError String :=
  let (docs, newId) := create_document st.customer p.model_dump freshId
  ({ st with customer := docs }, Except.ok newId)

/-- `POST /api/subscriptions` (lines 151–169): resolve both references (in
source order: customer first), 404 `"Customer or Plan not found"` if either is
missing, else persist the subscription dict built at a single instant `now`. -/
def create_subscription (st : Store) (now : Int) (freshId : String)
    (p : CreateSubscription) : Store × Except ApiError String :=
  match refLookupIfTruthy st.customer p.customer_id with
  | Except.error e => (st, Except.error e)
  | Except.ok cust =>
    match refLookupIfTruthy st.plan p.plan_id with
    | Except.error e => (st, Except.error e)
    | Except.ok plan =>
      if cust.isNone || plan.isNone then
        (st, Except.error (ApiError.notFound "Customer or Plan not found"))
      else
        let renew := now + thirtyDays
        let sub : Doc :=
          [("customer_id", Value.str p.customer_id),
           ("plan_id", Value.str p.plan_id),
           ("status", Value.str "active"),
           ("starts_at", Value.dt now),
           ("renews_at", Value.dt renew)]
        let (docs, subId) := create_document st.subscription sub freshId
        ({ st with subscription := docs }, Except.ok subId)

/-- `str(v)` as the list endpoints apply it to `d["_id"]`; stored `_id` values
are always ObjectIds, whose `str` is the hex string (other cases unreached). -/
def pyStrId : Value → Value
  | Value.oid h => Value.str h
  | Value.str s => Value.str s
  | v => v

/-- Lines 140–141 / 176–177: `d["_id"] = str(d["_id"])`. -/
def stringifyId (d : Doc) : Doc :=
  d.map fun kv => if kv.1 = "_id" then (kv.1, pyStrId kv.2) else kv

/-- `GET /api/plans` (lines 137–142): active-plan scan, ids stringified. -/
def list_plans (st : Store) : List Doc :=
  (get_documents st.plan [("is_active", Value.bool true)]).map stringifyId

/-- `GET /api/subscriptions` (lines 172–178): `query = {"customer_id": cid}
if cid else {}` — `None` and the empty string both fall through to the empty
query. -/
def list_subscriptions (st : Store) (customer_id : Option String) : List Doc :=
  let query : Doc :=
    match customer_id with
    | some cid => if cid ≠ "" then [("customer_id", Value.str cid)] else []
    | none => []
  (get_documents st.subscription query).map stringifyId

/-- `POST /api/bookings` (lines 181–190): `ObjectId(subscription_id)` with no
truthiness guard (so even the empty string hits the parser), existence check,
404 `"Subscription not found"` on a missing document, else persist the dumped
payload unchanged. -/
def create_booking (st : Store) (freshId : String) (p : CreateBooking) :
    Store × Except ApiError String :=
  match parseObjectId p.subscription_id with
  | none => (st, Except.error ApiError.invalidId)
  | some h =>
    match findOne st.subscription [("_id", Value.oid h)] with
    | none => (st, Except.error (ApiError.notFound "Subscription not found"))
    | some _ =>
      let (docs, bookingId) := create_document st.booking p.model_dump freshId
      ({ st with booking := docs }, Except.ok bookingId)

/-! ## Seed endpoint (`main.py` lines 82–133)

`POST /api/seed` inserts four fixed plan templates, skipping any whose `tier`
already occurs.  `insert_one` generates an ObjectId and timestamps come from
two `datetime.now(timezone.utc)` calls per insert; both are threaded in as
streams (`fresh`, `clock`), indexed by the number of inserts performed so far
(they never influence control flow). -/

/-- First plan dict of `main.py` lines 88–95. -/
def essentialWashPlan : Doc :=
  [("name", Value.str "Essential Wash"), ("tier", Value.str "basic"),
   ("price_qr", Value.num 79),
   ("description", Value.str "Exterior wash + interior vacuum (1x/week)"),
   ("features", Value.strList ["Exterior wash", "Interior vacuum", "Tyre shine"]),
   ("is_active", Value.bool true)]

/-- Second plan dict of `main.py` lines 96–103. -/
def carePlusPlan : Doc :=
  [("name", Value.str "Care Plus"), ("tier", Value.str "standard"),
   ("price_qr", Value.num 149),
   ("description", Value.str "Wash + interior detail (2x/month)"),
   ("features", Value.strList ["Exterior wash", "Interior detail", "Glass cleaning"]),
   ("is_active", Value.bool true)]

/-- Third plan dict of `main.py` lines 104–111. -/
def premiumDetailPlan : Doc :=
  [("name", Value.str "Premium Detail"), ("tier", Value.str "premium"),
   ("price_qr", Value.num 299),
   ("description", Value.str "Full detailing + priority booking"),
   ("features", Value.strList ["Full detailing", "Wax coat", "Priority booking"]),
   ("is_active", Value.bool true)]

/-- Fourth plan dict of `main.py` lines 112–124. -/
def annualCarePlan : Doc :=
  [("name", Value.str "Annual Care"), ("tier", Value.str "yearly"),
   ("price_qr", Value.num 1000),
   ("description", Value.str "Yearly subscription with discounted bundled services"),
   ("features", Value.strList
     ["Up to 12 washes per year", "Quarterly interior detailing",
      "Priority booking", "Annual wax and polish"]),
   ("is_active", Value.bool true)]

/-- The `plans` list of `main.py` lines 87–125. -/
def seedPlanTemplates : List Doc :=
  [essentialWashPlan, carePlusPlan, premiumDetailPlan, annualCarePlan]

/-- Line 131: `{**p, "created_at": now(), "updated_at": now()}` as stored by
`insert_one` (generated `_id` first). -/
def seedInsertedDoc (p : Doc) (fid : String) (t1 t2 : Int) : Doc :=
  ("_id", Value.oid fid) :: p ++
    [("created_at", Value.dt t1), ("updated_at", Value.dt t2)]

/-- Lines 127–132: the `for p in plans` loop.  `inserted` doubles as the index
into the id/clock streams. -/
def seedLoop (fresh : Nat → String) (clock : Nat → Int) :
    List Doc → Store → Nat → Store × Nat
  | [], st, inserted => (st, inserted)
  | p :: rest, st, inserted =>
    match findOne st.plan [("tier", Doc.get p "tier")] with
    | some _ => seedLoop fresh clock rest st inserted
    | none =>
      seedLoop fresh clock rest
        { st with plan := st.plan ++
            [seedInsertedDoc p (fresh inserted)
              (clock (2 * inserted)) (clock (2 * inserted + 1))] }
        (inserted + 1)

/-- `POST /api/seed` (lines 82–133): 500 when `db is None`, else the loop over
the four templates, returning `{"inserted": count}`. -/
def seed_plans (db : Option Store) (fresh : Nat → String) (clock : Nat → Int) :
    Option Store × Except ApiError Nat :=
  match db with
  | none => (none, Except.error (ApiError.serverError "Database not configured"))
  | some st =>
    let (st2, inserted) := seedLoop fresh clock seedPlanTemplates st 0
    (some st2, Except.ok inserted)

/-- The `tier` values of the four templates. -/
def seedTiers : List String := ["basic", "standard", "premium", "yearly"]

/-- Every seed tier already occurs on some stored plan (the condition under
which the loop inserts nothing). -/
def allSeedTiersPresent (st : Store) : Bool :=
  seedTiers.all fun t => (findOne st.plan [("tier", Value.str t)]).isSome

/-! ## Derived predicates used in the statements -/

/-- The identifier strings that do not raise `InvalidId` on `main.py`'s
subscription path: the empty string (skipped by the truthiness guard) and the
well-formed ObjectId strings. -/
def wellFormedOrEmpty (s : String) : Bool :=
  decide (s = "") || (parseObjectId s).isSome

/-- The identifier resolves: it parses as an ObjectId and a document with that
`_id` exists in the collection. -/
def resolvesIn (docs : List Doc) (s : String) : Bool :=
  match parseObjectId s with
  | some h => (findOne docs [("_id", Value.oid h)]).isSome
  | none => false

/-- The car-year constraint declared on the collection schema
(`schemas.py` line 26: `Field(None, ge=1970, le=2100)`).  `main.py`'s request
model `CreateCustomer` does not carry it. -/
def carYearInRange (y : Int) : Bool :=
  decide (1970 ≤ y) && decide (y ≤ 2100)

/-! ## Concrete inputs used by witnesses and counterexamples -/

def stEmpty : Store := ⟨[], [], [], []⟩

def cdocW : Doc :=
  [("_id", Value.oid "aaaaaaaaaaaaaaaaaaaaaaaa"), ("name", Value.str "Ali"),
   ("email", Value.str "ali@example.com"), ("phone", Value.str "555"),
   ("car_make", Value.str "Toyota"), ("car_model", Value.str "Camry"),
   ("car_year", Value.int 2020), ("plate_number", Value.null)]

def pdocW : Doc :=
  [("_id", Value.oid "bbbbbbbbbbbbbbbbbbbbbbbb"), ("name", Value.str "Essential Wash"),
   ("tier", Value.str "basic"), ("price_qr", Value.num 79),
   ("is_active", Value.bool true)]

/-- A store holding one customer and one plan. -/
def stW : Store := ⟨[cdocW], [pdocW], [], []⟩

/-- A payload whose two references resolve in `stW`. -/
def pW : CreateSubscription :=
  ⟨"aaaaaaaaaaaaaaaaaaaaaaaa", "bbbbbbbbbbbbbbbbbbbbbbbb"⟩

/-- A payload whose `customer_id` is malformed (not 24 hex characters) while
`plan_id` resolves in `stW`. -/
def pMalformedCust : CreateSubscription :=
  ⟨"zz", "bbbbbbbbbbbbbbbbbbbbbbbb"⟩

/-- A booking request with a well-formed subscription id. -/
def bW : CreateBooking :=
  ⟨"dddddddddddddddddddddddd", "wash", 1700000000, "Doha", none⟩

/-- A booking request whose subscription id is malformed. -/
def bMalformed : CreateBooking :=
  ⟨"not-a-valid-objectid!", "wash", 1700000000, "Doha", none⟩

/-- A subscription document with status `"canceled"`. -/
def subDocCanceled : Doc :=
  [("_id", Value.oid "eeeeeeeeeeeeeeeeeeeeeeee"),
   ("customer_id", Value.str "aaaaaaaaaaaaaaaaaaaaaaaa"),
   ("plan_id", Value.str "bbbbbbbbbbbbbbbbbbbbbbbb"),
   ("status", Value.str "canceled"),
   ("starts_at", Value.dt 0), ("renews_at", Value.dt thirtyDays)]

/-- A store whose only subscription is canceled. -/
def stCanceled : Store := ⟨[], [], [subDocCanceled], []⟩

/-- A booking request referencing the canceled subscription. -/
def bCanceled : CreateBooking :=
  ⟨"eeeeeeeeeeeeeeeeeeeeeeee", "wash", 1700000000, "Doha", none⟩

/-- A customer-creation body with `car_year = 1500`, outside the
`[1970, 2100]` range that `schemas.Customer` declares. -/
def pOldCar : CreateCustomer :=
  ⟨"Ali", "ali@example.com", "555", "Toyota", "Camry", some 1500, none⟩

/-- An active subscription document. -/
def subDocActive : Doc :=
  [("_id", Value.oid "ffffffffffffffffffffffff"),
   ("customer_id", Value.str "aaaaaaaaaaaaaaaaaaaaaaaa"),
   ("plan_id", Value.str "bbbbbbbbbbbbbbbbbbbbbbbb"),
   ("status", Value.str "active"),
   ("starts_at", Value.dt 0), ("renews_at", Value.dt thirtyDays)]

/-- A store whose only subscription is active. -/
def stActive : Store := ⟨[], [], [subDocActive], []⟩

/-- A shape-valid booking request referencing the active subscription. -/
def bActive : CreateBooking :=
  ⟨"ffffffffffffffffffffffff", "wash", 1700000000, "Doha", none⟩

/-! ## Helper lemmas -/

theorem parseObjectId_ne_empty {s h : String} (hp : parseObjectId s = some h) :
    s ≠ "" := by
  intro he
  subst he
  rw [(by decide : parseObjectId "" = none)] at hp
  exact Option.noConfusion hp

theorem matchesQuery_nil (d : Doc) : matchesQuery [] d = true := rfl

theorem matchesQuery_singleton {k : String} {v : Value} {d : Doc} :
    matchesQuery [(k, v)] d = true ↔ Doc.lookup d k = some v := by
  simp [matchesQuery, Doc.lookup]

theorem findOne_append_isSome {l l2 : List Doc} {q : Doc}
    (h : (findOne l q).isSome = true) : (findOne (l ++ l2) q).isSome = true := by
  unfold findOne at h ⊢
  rw [List.find?_append]
  cases hf : List.find? (matchesQuery q) l with
  | none => rw [hf] at h; simp at h
  | some d => simp [hf]

theorem findOne_append_singleton_isSome {l : List Doc} {q d : Doc}
    (h : matchesQuery q d = true) : (findOne (l ++ [d]) q).isSome = true := by
  unfold findOne
  rw [List.find?_append]
  cases hf : List.find? (matchesQuery q) l with
  | none => simp [hf, List.find?, h]
  | some e => simp [hf]

theorem lookup_append_left {k : String} {l1 l2 : Doc} {v : Value}
    (h : List.lookup k l1 = some v) : List.lookup k (l1 ++ l2) = some v := by
  induction l1 with
  | nil => simp [List.lookup] at h
  | cons kv rest ih =>
    obtain ⟨k1, v1⟩ := kv
    rw [List.cons_append]
    cases hb : (k == k1) with
    | true => simpa [List.lookup, hb] using h
    | false =>
      rw [List.lookup, hb] at h
      simpa [List.lookup, hb] using ih h

theorem lookup_cons (k k1 : String) (v1 : Value) (rest : Doc) :
    List.lookup k ((k1, v1) :: rest) =
      if k = k1 then some v1 else List.lookup k rest := by
  by_cases h : k = k1
  · simp [List.lookup, h]
  · have hb : (k == k1) = false := by simp [h]
    simp [List.lookup, h, hb]

theorem stringifyId_lookup {d : Doc} {k : String} (hk : k ≠ "_id") :
    Doc.lookup (stringifyId d) k = Doc.lookup d k := by
  induction d with
  | nil => rfl
  | cons kv rest ih =>
    obtain ⟨k1, v1⟩ := kv
    unfold Doc.lookup at ih ⊢
    by_cases h1 : k1 = "_id"
    · subst h1
      rw [show stringifyId (("_id", v1) :: rest) =
            ("_id", pyStrId v1) :: stringifyId rest from by simp [stringifyId]]
      rw [lookup_cons, lookup_cons, if_neg hk, if_neg hk]
      exact ih
    · rw [show stringifyId ((k1, v1) :: rest) = (k1, v1) :: stringifyId rest from
            by simp [stringifyId, h1]]
      rw [lookup_cons, lookup_cons]
      by_cases h2 : k = k1
      · simp [h2]
      · rw [if_neg h2, if_neg h2]
        exact ih

/-! ## Claim theorems -/

/-- C1: for every `(customer_id, plan_id)` pair where both identifiers resolve
to existing documents, `create_subscription` (POST /api/subscriptions)
persists and returns a subscription with `status = "active"`, `starts_at`
equal to the single creation instant `now`, and
`renews_at = starts_at + 30 days` exactly — for an arbitrary plan document,
i.e. regardless of the plan's tier. -/
theorem create_subscription_active_thirty_days
    (st : Store) (now : Int) (fid : String) (p : CreateSubscription)
    (hc hp : String) (cdoc pdoc : Doc)
    (h1 : parseObjectId p.customer_id = some hc)
    (h2 : findOne st.customer [("_id", Value.oid hc)] = some cdoc)
    (h3 : parseObjectId p.plan_id = some hp)
    (h4 : findOne st.plan [("_id", Value.oid hp)] = some pdoc) :
    create_subscription st now fid p =
      ({ st with subscription := st.subscription ++
          [[("_id", Value.oid fid),
            ("customer_id", Value.str p.customer_id),
            ("plan_id", Value.str p.plan_id),
            ("status", Value.str "active"),
            ("starts_at", Value.dt now),
            ("renews_at", Value.dt (now + thirtyDays))]] },
        Except.ok fid) ∧
    (now + thirtyDays) - now = 30 * 86400 := by
  have hc0 := parseObjectId_ne_empty h1
  have hp0 := parseObjectId_ne_empty h3
  constructor
  · simp [create_subscription, refLookupIfTruthy, hc0, hp0, h1, h2, h3, h4,
      create_document]
  · simp [thirtyDays]

/-- Witness for C1 at a concrete store, payload and instant. -/
theorem create_subscription_active_thirty_days_witness :
    (create_subscription stW 1000 "cccccccccccccccccccccccc" pW).2 =
      Except.ok "cccccccccccccccccccccccc" ∧
    (1000 + thirtyDays) - 1000 = 30 * 86400 := by
  have h := create_subscription_active_thirty_days stW 1000
    "cccccccccccccccccccccccc" pW "aaaaaaaaaaaaaaaaaaaaaaaa"
    "bbbbbbbbbbbbbbbbbbbbbbbb" cdocW pdocW
    (by decide) (by decide) (by decide) (by decide)
  exact ⟨by rw [h.1], h.2⟩

/-- C2 counterexample: `pMalformedCust.customer_id = "zz"` fails to resolve to
any existing customer document (it is not even a well-formed ObjectId, so
`resolvesIn` is `false`), yet `create_subscription` does not fail with the
combined not-found error — line 154's `ObjectId("zz")` raises
`bson.errors.InvalidId`, which no handler catches. -/
theorem create_subscription_malformed_not_combined_404 :
    resolvesIn stW.customer pMalformedCust.customer_id = false ∧
    create_subscription stW 0 "cccccccccccccccccccccccc" pMalformedCust =
      (stW, Except.error ApiError.invalidId) ∧
    ApiError.invalidId ≠ ApiError.notFound "Customer or Plan not found" := by
  exact ⟨by decide, by decide, by decide⟩

/-- C2 amended: when both identifiers are empty or well-formed store keys and
at least one of them does not resolve to an existing document,
`create_subscription` fails with the single combined 404
`"Customer or Plan not found"` and writes nothing (the store is returned
unchanged).  (A malformed non-empty identifier instead raises the key-parse
error out of the handler — still without writing.) -/
theorem resolvesIn_false_find {docs : List Doc} {s hid : String}
    (hp : parseObjectId s = some hid) (hr : resolvesIn docs s = false) :
    findOne docs [("_id", Value.oid hid)] = none := by
  simp only [resolvesIn, hp] at hr
  cases hf : findOne docs [("_id", Value.oid hid)] with
  | none => rfl
  | some d => rw [hf] at hr; simp at hr

theorem create_subscription_unresolved_combined_404
    (st : Store) (now : Int) (fid : String) (p : CreateSubscription)
    (hcf : wellFormedOrEmpty p.customer_id = true)
    (hpf : wellFormedOrEmpty p.plan_id = true)
    (hun : resolvesIn st.customer p.customer_id = false ∨
           resolvesIn st.plan p.plan_id = false) :
    create_subscription st now fid p =
      (st, Except.error (ApiError.notFound "Customer or Plan not found")) := by
  have hc := hcf
  have hp := hpf
  simp only [wellFormedOrEmpty, Bool.or_eq_true, decide_eq_true_eq,
    Option.isSome_iff_exists] at hc hp
  rcases hc with hc | ⟨hcid, hcparse⟩
  · -- customer_id empty: cust is None, so the 404 fires whatever the plan
    -- lookup finds (provided it does not raise, which hpf rules out).
    rcases hp with hp | ⟨hpid, hpparse⟩
    · simp [create_subscription, refLookupIfTruthy, hc, hp]
    · have hp0 := parseObjectId_ne_empty hpparse
      simp [create_subscription, refLookupIfTruthy, hc, hp0, hpparse]
  · have hc0 := parseObjectId_ne_empty hcparse
    rcases hun with hun | hun
    · -- customer does not resolve: parse succeeded, the lookup found none
      have hfind := resolvesIn_false_find hcparse hun
      rcases hp with hp | ⟨hpid, hpparse⟩
      · simp [create_subscription, refLookupIfTruthy, hc0, hcparse, hfind, hp]
      · have hp0 := parseObjectId_ne_empty hpparse
        simp [create_subscription, refLookupIfTruthy, hc0, hcparse, hfind,
          hp0, hpparse]
    · -- plan does not resolve
      rcases hp with hp | ⟨hpid, hpparse⟩
      · -- plan_id empty: plan is None
        simp [create_subscription, refLookupIfTruthy, hc0, hcparse, hp]
      · have hfind := resolvesIn_false_find hpparse hun
        have hp0 := parseObjectId_ne_empty hpparse
        simp [create_subscription, refLookupIfTruthy, hc0, hcparse, hp0,
          hpparse, hfind]

/-- Witness for the amended C2: both ids are well-formed but the store is
empty, so neither resolves; the combined 404 comes back and nothing is
written. -/
theorem create_subscription_unresolved_combined_404_witness :
    create_subscription stEmpty 0 "cccccccccccccccccccccccc" pW =
      (stEmpty, Except.error (ApiError.notFound "Customer or Plan not found")) :=
  create_subscription_unresolved_combined_404 stEmpty 0
    "cccccccccccccccccccccccc" pW (by decide) (by decide) (Or.inl (by decide))

/-- C3: for every booking request whose `subscription_id` is a well-formed
identifier that does not resolve to an existing subscription document,
`create_booking` (POST /api/bookings) fails with the 404
`"Subscription not found"` and writes nothing (the store is returned
unchanged). -/
theorem create_booking_unresolved_404
    (st : Store) (fid : String) (p : CreateBooking) (h : String)
    (h1 : parseObjectId p.subscription_id = some h)
    (h2 : findOne st.subscription [("_id", Value.oid h)] = none) :
    create_booking st fid p =
      (st, Except.error (ApiError.notFound "Subscription not found")) := by
  simp [create_booking, h1, h2]

/-- Witness for C3: a well-formed id against an empty subscription
collection. -/
theorem create_booking_unresolved_404_witness :
    create_booking stEmpty "cccccccccccccccccccccccc" bW =
      (stEmpty, Except.error (ApiError.notFound "Subscription not found")) :=
  create_booking_unresolved_404 stEmpty "cccccccccccccccccccccccc" bW
    "dddddddddddddddddddddddd" (by decide) (by decide)

/-- C4 counterexample: a malformed identifier is not surfaced as the not-found
response.  `bMalformed.subscription_id = "not-a-valid-objectid!"` cannot be
parsed into the store's native key type, yet `create_booking` ends in the
unhandled `bson.errors.InvalidId` exception (a server error), which differs
from the not-found outcome the claim requires. -/
theorem create_booking_malformed_id_unhandled :
    parseObjectId bMalformed.subscription_id = none ∧
    create_booking stW "cccccccccccccccccccccccc" bMalformed =
      (stW, Except.error ApiError.invalidId) ∧
    ApiError.invalidId ≠ ApiError.notFound "Subscription not found" := by
  exact ⟨by decide, by decide, by decide⟩

/-- C4 amended: a malformed identifier raises the key-parse error
(`bson.errors.InvalidId`, surfaced as an unhandled server error, never as the
not-found response), with one exception: in `create_subscription` the *empty*
string is skipped by the truthiness guard and is treated as an unresolved
reference, contributing to the combined 404.  Concretely: (i) in
`create_booking` any malformed `subscription_id` (the empty string included)
raises; (ii) in `create_subscription` a malformed non-empty `customer_id`
raises; (iii) so does a malformed non-empty `plan_id` when the customer line
did not already raise; (iv) when both ids are empty the response is the
combined 404. -/
theorem malformed_identifier_raises :
    (∀ (st : Store) (fid : String) (p : CreateBooking),
        parseObjectId p.subscription_id = none →
        create_booking st fid p = (st, Except.error ApiError.invalidId)) ∧
    (∀ (st : Store) (now : Int) (fid : String) (p : CreateSubscription),
        p.customer_id ≠ "" → parseObjectId p.customer_id = none →
        create_subscription st now fid p =
          (st, Except.error ApiError.invalidId)) ∧
    (∀ (st : Store) (now : Int) (fid : String) (p : CreateSubscription),
        (p.customer_id = "" ∨ (parseObjectId p.customer_id).isSome = true) →
        p.plan_id ≠ "" → parseObjectId p.plan_id = none →
        create_subscription st now fid p =
          (st, Except.error ApiError.invalidId)) ∧
    (∀ (st : Store) (now : Int) (fid : String) (p : CreateSubscription),
        p.customer_id = "" → p.plan_id = "" →
        create_subscription st now fid p =
          (st, Except.error (ApiError.notFound "Customer or Plan not found"))) := by
  refine ⟨?_, ?_, ?_, ?_⟩
  · intro st fid p hparse
    simp [create_booking, hparse]
  · intro st now fid p hne hparse
    simp [create_subscription, refLookupIfTruthy, hne, hparse]
  · intro st now fid p hcust hne hparse
    rcases hcust with hc | hc
    · simp [create_subscription, refLookupIfTruthy, hc, hne, hparse]
    · obtain ⟨hcid, hcparse⟩ := Option.isSome_iff_exists.mp hc
      have hc0 := parseObjectId_ne_empty hcparse
      simp [create_subscription, refLookupIfTruthy, hc0, hcparse, hne, hparse]
  · intro st now fid p hc hp
    simp [create_subscription, refLookupIfTruthy, hc, hp]

/-- C8: booking admission never inspects the referenced subscription's status.
For an arbitrary existing subscription document `sub` — whatever its `status`
value, `"canceled"` and `"paused"` included — a shape-valid booking request
referencing it succeeds and the dumped payload is persisted. -/
theorem create_booking_ignores_subscription_status
    (st : Store) (fid : String) (p : CreateBooking) (h : String) (sub : Doc)
    (h1 : parseObjectId p.subscription_id = some h)
    (h2 : findOne st.subscription [("_id", Value.oid h)] = some sub) :
    create_booking st fid p =
      ({ st with booking :=
          st.booking ++ [("_id", Value.oid fid) :: p.model_dump] },
        Except.ok fid) := by
  simp [create_booking, h1, h2, create_document]

/-- Witness for C8: the only subscription in the store has
`status = "canceled"`, and the booking referencing it is persisted anyway. -/
theorem create_booking_ignores_subscription_status_witness :
    create_booking stCanceled "cccccccccccccccccccccccc" bCanceled =
      ({ stCanceled with booking :=
          [("_id", Value.oid "cccccccccccccccccccccccc") :: bCanceled.model_dump] },
        Except.ok "cccccccccccccccccccccccc") := by
  have h := create_booking_ignores_subscription_status stCanceled
    "cccccccccccccccccccccccc" bCanceled "eeeeeeeeeeeeeeeeeeeeeeee"
    subDocCanceled (by decide) (by decide)
  simpa using h

/-- C5 (code bug): the booking record persisted by `create_booking` carries no
`status` key at all, let alone `"scheduled"`.  Line 188 persists
`payload.model_dump()` of `CreateBooking` — a model with no `status` field —
while `schemas.py`'s `Booking` documents the collection with
`status: "scheduled | in-progress | completed | canceled"` defaulting to
`"scheduled"`.  Evaluated at a shape-valid request against an existing active
subscription: the request succeeds, exactly one booking is stored, and a
`status` lookup on it yields nothing. -/
theorem create_booking_persists_no_status_field :
    (create_booking stActive "cccccccccccccccccccccccc" bActive).2 =
      Except.ok "cccccccccccccccccccccccc" ∧
    (create_booking stActive "cccccccccccccccccccccccc" bActive).1.booking =
      [("_id", Value.oid "cccccccccccccccccccccccc") :: bActive.model_dump] ∧
    Doc.lookup (("_id", Value.oid "cccccccccccccccccccccccc")
      :: bActive.model_dump) "status" = none := by
  exact ⟨by decide, by decide, by decide⟩

/-- C7 (code bug): `create_customer` applies no range gate to `car_year`.
`main.py`'s `CreateCustomer` declares `car_year: Optional[int] = None` with no
bounds, so a body with `car_year = 1500` — outside the `[1970, 2100]` range
that `schemas.Customer` declares for the collection — passes request
validation and is persisted verbatim instead of failing with a bad-request
`ValidationError`. -/
theorem create_customer_accepts_out_of_range_car_year :
    create_customer stEmpty "cccccccccccccccccccccccc" pOldCar =
      ({ stEmpty with customer :=
          [("_id", Value.oid "cccccccccccccccccccccccc") :: pOldCar.model_dump] },
        Except.ok "cccccccccccccccccccccccc") ∧
    Doc.lookup pOldCar.model_dump "car_year" = some (Value.int 1500) ∧
    carYearInRange 1500 = false := by
  exact ⟨by decide, by decide, by decide⟩

/-! ### Seed-routine lemmas -/

theorem seedLoop_plan_mono (fresh : Nat → String) (clock : Nat → Int) :
    ∀ (ps : List Doc) (st : Store) (n : Nat) (q : Doc),
      (findOne st.plan q).isSome = true →
      (findOne (seedLoop fresh clock ps st n).1.plan q).isSome = true := by
  intro ps
  induction ps with
  | nil => intro st n q hq; simpa [seedLoop] using hq
  | cons p rest ih =>
    intro st n q hq
    simp only [seedLoop]
    cases hf : findOne st.plan [("tier", Doc.get p "tier")] with
    | some d => exact ih st n q hq
    | none => exact ih _ _ q (findOne_append_isSome hq)

theorem seedInsertedDoc_lookup_tier {p : Doc} {v : Value}
    (hv : Doc.lookup p "tier" = some v) (fid : String) (t1 t2 : Int) :
    Doc.lookup (seedInsertedDoc p fid t1 t2) "tier" = some v := by
  unfold seedInsertedDoc
  unfold Doc.lookup at hv ⊢
  rw [List.cons_append, lookup_cons, if_neg (by decide : ¬("tier" = "_id"))]
  exact lookup_append_left hv

theorem seedLoop_tier_present (fresh : Nat → String) (clock : Nat → Int) :
    ∀ (ps : List Doc) (st : Store) (n : Nat) (p : Doc) (v : Value),
      p ∈ ps → Doc.lookup p "tier" = some v →
      (findOne (seedLoop fresh clock ps st n).1.plan
        [("tier", v)]).isSome = true := by
  intro ps
  induction ps with
  | nil => intro st n p v hmem; cases hmem
  | cons q rest ih =>
    intro st n p v hmem hv
    rcases List.mem_cons.mp hmem with rfl | hmem'
    · have hget : Doc.get p "tier" = v := by simp [Doc.get, hv]
      simp only [seedLoop, hget]
      cases hf : findOne st.plan [("tier", v)] with
      | some d => exact seedLoop_plan_mono fresh clock rest st n _ (by simp [hf])
      | none =>
        apply seedLoop_plan_mono fresh clock rest _ _ _
        apply findOne_append_singleton_isSome
        rw [matchesQuery_singleton]
        exact seedInsertedDoc_lookup_tier hv _ _ _
    · simp only [seedLoop]
      cases hf : findOne st.plan [("tier", Doc.get q "tier")] with
      | some d => exact ih st n p v hmem' hv
      | none => exact ih _ _ p v hmem' hv

theorem seedLoop_skip_all (fresh : Nat → String) (clock : Nat → Int) :
    ∀ (ps : List Doc) (st : Store) (n : Nat),
      (∀ p ∈ ps, (findOne st.plan [("tier", Doc.get p "tier")]).isSome = true) →
      seedLoop fresh clock ps st n = (st, n) := by
  intro ps
  induction ps with
  | nil => intro st n _; rfl
  | cons p rest ih =>
    intro st n hall
    simp only [seedLoop]
    obtain ⟨d, hd⟩ := Option.isSome_iff_exists.mp (hall p (by simp))
    rw [hd]
    exact ih st n (fun q hq => hall q (by simp [hq]))

theorem seedLoop_all_tiers_present (fresh : Nat → String) (clock : Nat → Int)
    (st : Store) :
    allSeedTiersPresent (seedLoop fresh clock seedPlanTemplates st 0).1 = true := by
  have h := seedLoop_tier_present fresh clock seedPlanTemplates st 0
  have hb := h essentialWashPlan (Value.str "basic")
    (by simp [seedPlanTemplates]) (by decide)
  have hs := h carePlusPlan (Value.str "standard")
    (by simp [seedPlanTemplates]) (by decide)
  have hp := h premiumDetailPlan (Value.str "premium")
    (by simp [seedPlanTemplates]) (by decide)
  have hy := h annualCarePlan (Value.str "yearly")
    (by simp [seedPlanTemplates]) (by decide)
  simp only [allSeedTiersPresent, seedTiers, List.all_cons, List.all_nil,
    Bool.and_eq_true]
  simp [hb, hs, hp, hy]

/-- C6: `seed_plans` (POST /api/seed) is idempotent.  Each of the four fixed
plan templates is inserted only when no existing plan shares its `tier`; for
any store in which all four tiers already occur a call returns
`inserted == 0` and leaves the store — in particular the total plan count —
unchanged, and this holds in particular for the store produced by any prior
successful call (so a second call in sequence always returns 0). -/
theorem seed_plans_idempotent :
    (∀ (st : Store) (fresh : Nat → String) (clock : Nat → Int),
        allSeedTiersPresent st = true →
        seed_plans (some st) fresh clock = (some st, Except.ok 0)) ∧
    (∀ (st : Store) (fresh fresh2 : Nat → String) (clock clock2 : Nat → Int),
        seed_plans ((seed_plans (some st) fresh clock).1) fresh2 clock2 =
          ((seed_plans (some st) fresh clock).1, Except.ok 0)) := by
  have main : ∀ (st : Store) (fresh : Nat → String) (clock : Nat → Int),
      allSeedTiersPresent st = true →
      seed_plans (some st) fresh clock = (some st, Except.ok 0) := by
    intro st fresh clock hall
    have hall' : ∀ t ∈ seedTiers,
        (findOne st.plan [("tier", Value.str t)]).isSome = true := by
      intro t ht
      have := List.all_eq_true.mp hall t ht
      simpa using this
    have hskip : ∀ p ∈ seedPlanTemplates,
        (findOne st.plan [("tier", Doc.get p "tier")]).isSome = true := by
      intro p hp'
      simp only [seedPlanTemplates, List.mem_cons, List.not_mem_nil,
        or_false] at hp'
      rcases hp' with rfl | rfl | rfl | rfl
      · rw [show Doc.get essentialWashPlan "tier" = Value.str "basic"
          from by decide]
        exact hall' "basic" (by simp [seedTiers])
      · rw [show Doc.get carePlusPlan "tier" = Value.str "standard"
          from by decide]
        exact hall' "standard" (by simp [seedTiers])
      · rw [show Doc.get premiumDetailPlan "tier" = Value.str "premium"
          from by decide]
        exact hall' "premium" (by simp [seedTiers])
      · rw [show Doc.get annualCarePlan "tier" = Value.str "yearly"
          from by decide]
        exact hall' "yearly" (by simp [seedTiers])
    simp [seed_plans, seedLoop_skip_all fresh clock seedPlanTemplates st 0 hskip]
  refine ⟨main, ?_⟩
  intro st fresh fresh2 clock clock2
  have hfst : (seed_plans (some st) fresh clock).1 =
      some (seedLoop fresh clock seedPlanTemplates st 0).1 := by
    simp [seed_plans]
  rw [hfst]
  exact main _ fresh2 clock2 (seedLoop_all_tiers_present fresh clock st)

/-- C9: `list_plans` (GET /api/plans) returns exactly the plans whose
`is_active` field is `true` (as stored, with the `_id` stringified); in
particular no returned document — hence no plan with `is_active == false` —
lacks `is_active = true`. -/
theorem list_plans_exactly_active (st : Store) :
    (∀ d, d ∈ list_plans st ↔
      ∃ d0, d0 ∈ st.plan ∧ Doc.lookup d0 "is_active" = some (Value.bool true) ∧
        d = stringifyId d0) ∧
    ∀ d, d ∈ list_plans st → Doc.lookup d "is_active" = some (Value.bool true) := by
  have hmem : ∀ d, d ∈ list_plans st ↔
      ∃ d0, d0 ∈ st.plan ∧ Doc.lookup d0 "is_active" = some (Value.bool true) ∧
        d = stringifyId d0 := by
    intro d
    constructor
    · intro hd
      simp only [list_plans, List.mem_map] at hd
      obtain ⟨d0, hd0, rfl⟩ := hd
      simp only [get_documents, List.mem_filter] at hd0
      exact ⟨d0, hd0.1, matchesQuery_singleton.mp hd0.2, rfl⟩
    · rintro ⟨d0, hmem0, hq, rfl⟩
      simp only [list_plans, List.mem_map]
      refine ⟨d0, ?_, rfl⟩
      simp only [get_documents, List.mem_filter]
      exact ⟨hmem0, matchesQuery_singleton.mpr hq⟩
  refine ⟨hmem, ?_⟩
  intro d hd
  obtain ⟨d0, hmem0, hq, rfl⟩ := (hmem d).mp hd
  rw [stringifyId_lookup (by decide)]
  exact hq

/-- C10 (implicit): `create_subscription` persists `customer_id` and `plan_id`
as the raw request strings (`Value.str`, not the store's key type
`Value.oid`), and `list_subscriptions` (GET /api/subscriptions) filters by
exact string equality on the stored `customer_id` when the query parameter is
supplied and non-empty, while an absent (`none`) or empty parameter returns
every subscription (ids stringified) rather than those with an empty
`customer_id`. -/
theorem subscription_raw_ids_and_customer_filter :
    (∀ (st : Store) (now : Int) (fid : String) (p : CreateSubscription)
        (hc hp : String) (cdoc pdoc : Doc),
        parseObjectId p.customer_id = some hc →
        findOne st.customer [("_id", Value.oid hc)] = some cdoc →
        parseObjectId p.plan_id = some hp →
        findOne st.plan [("_id", Value.oid hp)] = some pdoc →
        ∃ d, (create_subscription st now fid p).1.subscription =
            st.subscription ++ [d] ∧
          Doc.lookup d "customer_id" = some (Value.str p.customer_id) ∧
          Doc.lookup d "plan_id" = some (Value.str p.plan_id)) ∧
    (∀ (st : Store) (cid : String), cid ≠ "" → ∀ d,
        d ∈ list_subscriptions st (some cid) ↔
          ∃ d0, d0 ∈ st.subscription ∧
            Doc.lookup d0 "customer_id" = some (Value.str cid) ∧
            d = stringifyId d0) ∧
    (∀ st : Store,
        list_subscriptions st none = st.subscription.map stringifyId) ∧
    (∀ st : Store,
        list_subscriptions st (some "") = st.subscription.map stringifyId) := by
  refine ⟨?_, ?_, ?_, ?_⟩
  · intro st now fid p hc hp cdoc pdoc h1 h2 h3 h4
    have hc0 := parseObjectId_ne_empty h1
    have hp0 := parseObjectId_ne_empty h3
    refine ⟨("_id", Value.oid fid) ::
      [("customer_id", Value.str p.customer_id),
       ("plan_id", Value.str p.plan_id),
       ("status", Value.str "active"),
       ("starts_at", Value.dt now),
       ("renews_at", Value.dt (now + thirtyDays))], ?_, ?_, ?_⟩
    · simp [create_subscription, refLookupIfTruthy, hc0, hp0, h1, h2, h3, h4,
        create_document]
    · unfold Doc.lookup
      rw [lookup_cons, if_neg (by decide : ¬("customer_id" = "_id")),
        lookup_cons, if_pos rfl]
    · unfold Doc.lookup
      rw [lookup_cons, if_neg (by decide : ¬("plan_id" = "_id")),
        lookup_cons, if_neg (by decide : ¬("plan_id" = "customer_id")),
        lookup_cons, if_pos rfl]
  · intro st cid hcid d
    constructor
    · intro hd
      simp only [list_subscriptions, hcid, if_true, ne_eq,
        not_false_eq_true, if_pos, List.mem_map] at hd
      obtain ⟨d0, hd0, rfl⟩ := hd
      simp only [get_documents, List.mem_filter] at hd0
      exact ⟨d0, hd0.1, matchesQuery_singleton.mp hd0.2, rfl⟩
    · rintro ⟨d0, hmem0, hq, rfl⟩
      simp only [list_subscriptions, hcid, ne_eq, not_false_eq_true, if_pos,
        List.mem_map]
      refine ⟨d0, ?_, rfl⟩
      simp only [get_documents, List.mem_filter]
      exact ⟨hmem0, matchesQuery_singleton.mpr hq⟩
  · intro st
    simp only [list_subscriptions, get_documents]
    rw [List.filter_eq_self.mpr (fun a _ => matchesQuery_nil a)]
  · intro st
    simp only [list_subscriptions, ne_eq, not_true_eq_false, if_neg,
      get_documents, reduceIte]
    rw [List.filter_eq_self.mpr (fun a _ => matchesQuery_nil a)]
